import Mathlib

/-!
Verification development for the stock-prediction engine in
`ml_api_server.py` (class `StockPredictor`).

Modelling conventions:
* Python floats are modelled as exact rationals (`ℚ`).  Every branch
  condition proved about here compares quantities whose exact values are at
  least 1/20 away from the corresponding threshold, so double rounding can
  never flip a branch and the rational model is faithful.
* A pandas value that may be NaN is modelled as `Option ℚ` with `none` for
  NaN; Python comparisons against NaN are always false, which the `py*`
  comparison helpers reproduce.
* External collaborators (the `ta` indicator library, `yfinance`,
  sklearn's shuffled `train_test_split`, numpy's RNG, `np.sin`, and
  Python's per-process randomised string hash) are parameters of the
  embedding, never hard-coded behaviour.
* `round` in Python/numpy rounds half to even; `rne` below implements that
  rounding on rationals.
-/

namespace StockPrediction

/-! ### Half-to-even rounding (Python `round`) -/

/-- Round a rational to the nearest integer, ties to even, as Python's
`round` and numpy's `round` do. -/
def rne (x : ℚ) : ℤ :=
  if x - ⌊x⌋ < 1/2 then ⌊x⌋
  else if (1:ℚ)/2 < x - ⌊x⌋ then ⌊x⌋ + 1
  else if Even ⌊x⌋ then ⌊x⌋ else ⌊x⌋ + 1

/-- `round(x, 2)` from `ml_api_server.py` line 327. -/
def round2 (x : ℚ) : ℚ := (rne (100 * x) : ℚ) / 100

/-- `round(x, 3)` from `ml_api_server.py` line 328. -/
def round3 (x : ℚ) : ℚ := (rne (1000 * x) : ℚ) / 1000

lemma floor_le_rne (x : ℚ) : ⌊x⌋ ≤ rne x := by
  unfold rne; split_ifs <;> omega

lemma rne_le_floor_add_one (x : ℚ) : rne x ≤ ⌊x⌋ + 1 := by
  unfold rne; split_ifs <;> omega

lemma rne_mono {x y : ℚ} (h : x ≤ y) : rne x ≤ rne y := by
  have hf : ⌊x⌋ ≤ ⌊y⌋ := Int.floor_le_floor h
  rcases eq_or_lt_of_le hf with heq | hlt
  · have hr : x - (⌊x⌋ : ℚ) ≤ y - (⌊x⌋ : ℚ) := by linarith
    unfold rne
    rw [← heq]
    split_ifs <;> first | omega | (exfalso; linarith)
  · calc rne x ≤ ⌊x⌋ + 1 := rne_le_floor_add_one x
    _ ≤ ⌊y⌋ := by omega
    _ ≤ rne y := floor_le_rne y

lemma rne_intCast (n : ℤ) : rne (n : ℚ) = n := by
  unfold rne
  have h0 : ((n : ℚ) - (⌊(n : ℚ)⌋ : ℚ)) = 0 := by
    rw [Int.floor_intCast]; ring
  rw [Int.floor_intCast]
  rw [show ((n : ℚ) - (n : ℚ)) = 0 by ring]
  norm_num

lemma round3_mono {x y : ℚ} (h : x ≤ y) : round3 x ≤ round3 y := by
  unfold round3
  have := rne_mono (show 1000 * x ≤ 1000 * y by linarith)
  have hc : ((rne (1000 * x) : ℚ)) ≤ ((rne (1000 * y) : ℚ)) := by exact_mod_cast this
  linarith

lemma round3_ge_of_ge {x b : ℚ} (m : ℤ) (hm : (m : ℚ) = 1000 * b) (h : b ≤ x) :
    b ≤ round3 x := by
  unfold round3
  have h1 : rne (m : ℚ) ≤ rne (1000 * x) := rne_mono (by rw [hm]; linarith)
  rw [rne_intCast] at h1
  have h2 : (m : ℚ) ≤ (rne (1000 * x) : ℚ) := by exact_mod_cast h1
  rw [hm] at h2
  linarith

/-! ### Python/pandas value model -/

/-- A pandas float cell: `none` models NaN. -/
abbrev PyFloat := Option ℚ

/-- Python `a < b` where either side may be NaN (NaN comparisons are false). -/
def pyLt : PyFloat → PyFloat → Bool
  | some a, some b => decide (a < b)
  | _, _ => false

/-- Python `a > b` with NaN-is-false semantics. -/
def pyGt : PyFloat → PyFloat → Bool
  | some a, some b => decide (b < a)
  | _, _ => false

/-- Python `a <= b` with NaN-is-false semantics. -/
def pyLe : PyFloat → PyFloat → Bool
  | some a, some b => decide (a ≤ b)
  | _, _ => false

/-- Python `a >= b` with NaN-is-false semantics. -/
def pyGe : PyFloat → PyFloat → Bool
  | some a, some b => decide (b ≤ a)
  | _, _ => false

/-! ### Signal fusion (`StockPredictor.get_enhanced_signal`, lines 159-244)

`latest_data` is a one-row DataFrame; `'RSI' in latest_data` tests column
membership, and `.iloc[0]` reads the (possibly NaN) cell.  `Close` is
always present and non-NaN in downloaded OHLCV data, so it is a plain `ℚ`.
-/

/-- The last row of the indicator-augmented frame: the set of columns the
frame has, the (possibly NaN) cell of each column, and the `Close` cell. -/
structure LatestRow where
  cols : List String
  val : String → PyFloat
  close : ℚ

/-- The eight indicator inputs of fusion after the extraction step of
lines 163-170 (`x if 'X' in latest_data else default`). -/
structure FusionInputs where
  rsi : PyFloat
  macd : PyFloat
  macdSignal : PyFloat
  price : ℚ
  sma20 : PyFloat
  sma50 : PyFloat
  bbUpper : PyFloat
  bbLower : PyFloat

/-- Lines 163-170: each indicator falls back to its neutral default when —
and only when — its column is absent from the frame; a present (possibly
NaN) cell is read as-is. -/
def extractInputs (row : LatestRow) : FusionInputs where
  rsi := if "RSI" ∈ row.cols then row.val "RSI" else some 50
  macd := if "MACD" ∈ row.cols then row.val "MACD" else some 0
  macdSignal := if "MACD_Signal" ∈ row.cols then row.val "MACD_Signal" else some 0
  price := row.close
  sma20 := if "SMA_20" ∈ row.cols then row.val "SMA_20" else some row.close
  sma50 := if "SMA_50" ∈ row.cols then row.val "SMA_50" else some row.close
  bbUpper := if "BB_Upper" ∈ row.cols then row.val "BB_Upper" else some (row.close * (102/100))
  bbLower := if "BB_Lower" ∈ row.cols then row.val "BB_Lower" else some (row.close * (98/100))

/-- RSI sub-score, lines 176-181. -/
def rsiScore (i : FusionInputs) : ℤ :=
  if pyLt i.rsi (some 30) then 1
  else if pyGt i.rsi (some 70) then -1
  else 0

/-- MACD sub-score, lines 184-189. -/
def macdScore (i : FusionInputs) : ℤ :=
  if pyGt i.macd i.macdSignal && pyGt i.macd (some 0) then 1
  else if pyLt i.macd i.macdSignal && pyLt i.macd (some 0) then -1
  else 0

/-- Moving-average trend sub-score, lines 192-197 (Python chained
comparison `a > b > c` is `a > b and b > c`). -/
def trendScore (i : FusionInputs) : ℤ :=
  if pyGt (some i.price) i.sma20 && pyGt i.sma20 i.sma50 then 1
  else if pyLt (some i.price) i.sma20 && pyLt i.sma20 i.sma50 then -1
  else 0

/-- Bollinger-band sub-score, lines 200-205. -/
def bbScore (i : FusionInputs) : ℤ :=
  if pyLe (some i.price) i.bbLower then 1
  else if pyGe (some i.price) i.bbUpper then -1
  else 0

/-- The `signal_scores` list of line 173 after the four appends. -/
def signalScores (i : FusionInputs) : List ℤ :=
  [rsiScore i, macdScore i, trendScore i, bbScore i]

/-- `technical_signal = np.mean(signal_scores)`, line 209. -/
def technicalSignal (i : FusionInputs) : ℚ :=
  ((signalScores i).sum : ℚ) / 4

/-- `combined_signal = 0.6 * technical_signal + 0.4 * ml_signal`, line 212. -/
def combinedSignal (i : FusionInputs) (ml : ℤ) : ℚ :=
  (6/10) * technicalSignal i + (4/10) * (ml : ℚ)

/-- Final-signal thresholding, lines 215-220. -/
def finalSignal (i : FusionInputs) (ml : ℤ) : ℤ :=
  if (1:ℚ)/2 ≤ combinedSignal i ml then 1
  else if combinedSignal i ml ≤ -(1/2) then -1
  else 0

/-- `prediction_proba`: the classifier's probability for each of the three
classes (-1, 0, 1), in `predict_proba` order. -/
structure Probs where
  pSell : ℚ
  pHold : ℚ
  pBuy : ℚ

/-- `np.max(prediction_proba)`, line 223. -/
def maxProb (p : Probs) : ℚ := max p.pSell (max p.pHold p.pBuy)

/-- Agreement bonus, line 225. -/
def agreement (i : FusionInputs) (ml : ℤ) : ℚ :=
  if 0 ≤ technicalSignal i * (ml : ℚ) then 1 else 1/2

/-- Confidence, line 227:
`ml_confidence * 0.5 + technical_strength * 0.3 + agreement * 0.2`. -/
def fusionConfidence (i : FusionInputs) (ml : ℤ) (p : Probs) : ℚ :=
  maxProb p * (5/10) + |technicalSignal i| * (3/10) + agreement i ml * (2/10)

/-- Result record of `get_enhanced_signal` (the numeric parts of the
returned triple and detail dict). -/
structure EnhancedSignal where
  finalSignal : ℤ
  confidence : ℚ
  technicalSignal : ℚ
  combinedSignal : ℚ
  mlSignal : ℤ

/-- `get_enhanced_signal(latest_data, prediction, prediction_proba)`.
Nothing on this path can raise (NaN comparisons are just false), so the
`except` fallback of lines 242-244 is unreachable and the function is
total. -/
def getEnhancedSignal (row : LatestRow) (prediction : ℤ) (p : Probs) : EnhancedSignal :=
  let i := extractInputs row
  { finalSignal := finalSignal i prediction
    confidence := fusionConfidence i prediction p
    technicalSignal := technicalSignal i
    combinedSignal := combinedSignal i prediction
    mlSignal := prediction }

/-- A concrete bullish latest row: all four sub-scores evaluate to 1. -/
def bullishRow : LatestRow where
  cols := ["RSI", "MACD", "MACD_Signal", "SMA_20", "SMA_50", "BB_Upper", "BB_Lower"]
  val := fun n =>
    if n = "RSI" then some 25
    else if n = "MACD" then some 1
    else if n = "MACD_Signal" then some (1/2)
    else if n = "SMA_20" then some 90
    else if n = "SMA_50" then some 80
    else if n = "BB_Upper" then some 120
    else if n = "BB_Lower" then some 100
    else none
  close := 100

/-- Probability vector with maximum 0.9 on the Buy class. -/
def probs09 : Probs := ⟨1/20, 1/20, 9/10⟩

/-- A latest row whose indicator columns are all present but whose cells
are all NaN (`none`). -/
def nanRow : LatestRow where
  cols := ["RSI", "MACD", "MACD_Signal", "SMA_20", "SMA_50", "BB_Upper", "BB_Lower"]
  val := fun _ => none
  close := 100

/-- A latest row with no indicator columns at all. -/
def emptyRow : LatestRow where
  cols := []
  val := fun _ => none
  close := 100

lemma finalSignal_eq_one_iff (i : FusionInputs) (ml : ℤ) :
    finalSignal i ml = 1 ↔ (1:ℚ)/2 ≤ combinedSignal i ml := by
  unfold finalSignal
  split_ifs with h1 h2
  · exact ⟨fun _ => h1, fun _ => rfl⟩
  · exact ⟨fun h => absurd h (by decide), fun h => absurd h h1⟩
  · exact ⟨fun h => absurd h (by decide), fun h => absurd h h1⟩

lemma finalSignal_eq_neg_one_iff (i : FusionInputs) (ml : ℤ) :
    finalSignal i ml = -1 ↔ combinedSignal i ml ≤ -(1/2) := by
  unfold finalSignal
  split_ifs with h1 h2
  · have hn : ¬ combinedSignal i ml ≤ -(1/2) := by linarith
    exact ⟨fun h => absurd h (by decide), fun h => absurd h hn⟩
  · exact ⟨fun _ => h2, fun _ => rfl⟩
  · exact ⟨fun h => absurd h (by decide), fun h => absurd h h2⟩

lemma finalSignal_eq_zero_iff (i : FusionInputs) (ml : ℤ) :
    finalSignal i ml = 0 ↔
      ¬((1:ℚ)/2 ≤ combinedSignal i ml) ∧ ¬(combinedSignal i ml ≤ -(1/2)) := by
  unfold finalSignal
  split_ifs with h1 h2
  · exact ⟨fun h => absurd h (by decide), fun h => absurd h1 h.1⟩
  · exact ⟨fun h => absurd h (by decide), fun h => absurd h2 h.2⟩
  · exact ⟨fun _ => ⟨h1, h2⟩, fun _ => rfl⟩

/-- C1: for every latest row, classifier prediction in {-1,0,1} and
probability vector, the four technical sub-scores each lie in {-1,0,1},
`technical_signal` is their arithmetic mean, `combined_signal` is
`0.6*technical_signal + 0.4*ml_signal`, and the final signal is 1 iff
`combined_signal >= 0.5`, -1 iff `combined_signal <= -0.5`, and 0
otherwise. -/
theorem enhanced_signal_decision (row : LatestRow) (prediction : ℤ) (p : Probs)
    (_hml : prediction = -1 ∨ prediction = 0 ∨ prediction = 1) :
    ((rsiScore (extractInputs row) = -1 ∨ rsiScore (extractInputs row) = 0 ∨
        rsiScore (extractInputs row) = 1) ∧
      (macdScore (extractInputs row) = -1 ∨ macdScore (extractInputs row) = 0 ∨
        macdScore (extractInputs row) = 1) ∧
      (trendScore (extractInputs row) = -1 ∨ trendScore (extractInputs row) = 0 ∨
        trendScore (extractInputs row) = 1) ∧
      (bbScore (extractInputs row) = -1 ∨ bbScore (extractInputs row) = 0 ∨
        bbScore (extractInputs row) = 1)) ∧
    (getEnhancedSignal row prediction p).technicalSignal =
      ((rsiScore (extractInputs row) : ℚ) + (macdScore (extractInputs row) : ℚ) +
        (trendScore (extractInputs row) : ℚ) + (bbScore (extractInputs row) : ℚ)) / 4 ∧
    (getEnhancedSignal row prediction p).combinedSignal =
      (6/10) * (getEnhancedSignal row prediction p).technicalSignal +
        (4/10) * (prediction : ℚ) ∧
    ((getEnhancedSignal row prediction p).finalSignal = 1 ↔
      (1:ℚ)/2 ≤ (getEnhancedSignal row prediction p).combinedSignal) ∧
    ((getEnhancedSignal row prediction p).finalSignal = -1 ↔
      (getEnhancedSignal row prediction p).combinedSignal ≤ -(1/2)) ∧
    ((getEnhancedSignal row prediction p).finalSignal = 0 ↔
      ¬((1:ℚ)/2 ≤ (getEnhancedSignal row prediction p).combinedSignal) ∧
      ¬((getEnhancedSignal row prediction p).combinedSignal ≤ -(1/2))) := by
  refine ⟨⟨?_, ?_, ?_, ?_⟩, ?_, ?_, ?_, ?_, ?_⟩
  · unfold rsiScore; split_ifs <;> simp
  · unfold macdScore; split_ifs <;> simp
  · unfold trendScore; split_ifs <;> simp
  · unfold bbScore; split_ifs <;> simp
  · simp only [getEnhancedSignal, technicalSignal, signalScores, List.sum_cons,
      List.sum_nil]
    push_cast
    ring
  · simp only [getEnhancedSignal, combinedSignal]
  · exact finalSignal_eq_one_iff (extractInputs row) prediction
  · exact finalSignal_eq_neg_one_iff (extractInputs row) prediction
  · exact finalSignal_eq_zero_iff (extractInputs row) prediction

/-- Witness for C1 at a concrete bullish row with `ml_signal = 1`. -/
theorem enhanced_signal_decision_witness :
    (getEnhancedSignal bullishRow 1 probs09).technicalSignal =
      ((rsiScore (extractInputs bullishRow) : ℚ) + (macdScore (extractInputs bullishRow) : ℚ) +
        (trendScore (extractInputs bullishRow) : ℚ) + (bbScore (extractInputs bullishRow) : ℚ)) / 4 :=
  (enhanced_signal_decision bullishRow 1 probs09 (Or.inr (Or.inr rfl))).2.1

/-- C3: the fused confidence is
`0.5*max(probabilities) + 0.3*|technical_signal| + 0.2*agreement`, with
agreement 1 when `technical_signal * ml_signal >= 0` and 0.5 otherwise;
at max probability 0.9, technical signal 1 and ml signal 1 it is 0.95. -/
theorem fusion_confidence_formula :
    (∀ (row : LatestRow) (prediction : ℤ) (p : Probs),
        (getEnhancedSignal row prediction p).confidence =
          (1/2) * maxProb p + (3/10) * |technicalSignal (extractInputs row)| +
            (1/5) * (if 0 ≤ technicalSignal (extractInputs row) * (prediction : ℚ)
                     then 1 else 1/2)) ∧
    (getEnhancedSignal bullishRow 1 probs09).confidence = 19/20 := by
  constructor
  · intro row prediction p
    simp only [getEnhancedSignal, fusionConfidence, agreement]
    split_ifs <;> ring
  · have e1 : (extractInputs bullishRow).rsi = some 25 := rfl
    have e2 : (extractInputs bullishRow).macd = some 1 := rfl
    have e3 : (extractInputs bullishRow).macdSignal = some (1/2) := rfl
    have e4 : (extractInputs bullishRow).price = 100 := rfl
    have e5 : (extractInputs bullishRow).sma20 = some 90 := rfl
    have e6 : (extractInputs bullishRow).sma50 = some 80 := rfl
    have e7 : (extractInputs bullishRow).bbUpper = some 120 := rfl
    have e8 : (extractInputs bullishRow).bbLower = some 100 := rfl
    have htech : technicalSignal (extractInputs bullishRow) = 1 := by
      unfold technicalSignal signalScores rsiScore macdScore trendScore bbScore
      rw [e1, e2, e3, e4, e5, e6, e7, e8]
      norm_num [pyLt, pyGt, pyLe, pyGe]
    show fusionConfidence (extractInputs bullishRow) 1 probs09 = 19/20
    unfold fusionConfidence agreement maxProb
    rw [htech]
    norm_num [probs09, max_def]

/-- C8 counterexample: in `nanRow` the `RSI` value of the latest row is
undefined (NaN), yet fusion does not substitute the neutral default 50 —
the NaN is read as-is, because the fallback of line 163 tests column
membership, not definedness.  Fusion still completes (score 0, Hold). -/
theorem fusion_nan_not_substituted :
    "RSI" ∈ nanRow.cols ∧ nanRow.val "RSI" = none ∧
    (extractInputs nanRow).rsi = none ∧ (extractInputs nanRow).rsi ≠ some 50 ∧
    (getEnhancedSignal nanRow 1 probs09).finalSignal = 0 := by
  have e1 : (extractInputs nanRow).rsi = none := rfl
  have e2 : (extractInputs nanRow).macd = none := rfl
  have e3 : (extractInputs nanRow).macdSignal = none := rfl
  have e4 : (extractInputs nanRow).price = 100 := rfl
  have e5 : (extractInputs nanRow).sma20 = none := rfl
  have e6 : (extractInputs nanRow).sma50 = none := rfl
  have e7 : (extractInputs nanRow).bbUpper = none := rfl
  have e8 : (extractInputs nanRow).bbLower = none := rfl
  have htech : technicalSignal (extractInputs nanRow) = 0 := by
    unfold technicalSignal signalScores rsiScore macdScore trendScore bbScore
    rw [e1, e2, e3, e4, e5, e6, e7, e8]
    norm_num [pyLt, pyGt, pyLe, pyGe]
  refine ⟨by decide, rfl, by decide, by decide, ?_⟩
  show finalSignal (extractInputs nanRow) 1 = 0
  unfold finalSignal combinedSignal
  rw [htech]
  norm_num

/-- C8 amended: each indicator is substituted with its neutral default
(RSI 50, MACD and MACD signal 0, SMA20/50 the current price, Bollinger
bands price*1.02 and price*0.98) exactly when its column is absent from
the frame; a present column's value is passed through unchanged, even
when it is undefined. -/
theorem fusion_missing_defaults (row : LatestRow) :
    ("RSI" ∉ row.cols → (extractInputs row).rsi = some 50) ∧
    ("RSI" ∈ row.cols → (extractInputs row).rsi = row.val "RSI") ∧
    ("MACD" ∉ row.cols → (extractInputs row).macd = some 0) ∧
    ("MACD" ∈ row.cols → (extractInputs row).macd = row.val "MACD") ∧
    ("MACD_Signal" ∉ row.cols → (extractInputs row).macdSignal = some 0) ∧
    ("MACD_Signal" ∈ row.cols → (extractInputs row).macdSignal = row.val "MACD_Signal") ∧
    ("SMA_20" ∉ row.cols → (extractInputs row).sma20 = some row.close) ∧
    ("SMA_20" ∈ row.cols → (extractInputs row).sma20 = row.val "SMA_20") ∧
    ("SMA_50" ∉ row.cols → (extractInputs row).sma50 = some row.close) ∧
    ("SMA_50" ∈ row.cols → (extractInputs row).sma50 = row.val "SMA_50") ∧
    ("BB_Upper" ∉ row.cols → (extractInputs row).bbUpper = some (row.close * (102/100))) ∧
    ("BB_Upper" ∈ row.cols → (extractInputs row).bbUpper = row.val "BB_Upper") ∧
    ("BB_Lower" ∉ row.cols → (extractInputs row).bbLower = some (row.close * (98/100))) ∧
    ("BB_Lower" ∈ row.cols → (extractInputs row).bbLower = row.val "BB_Lower") := by
  refine ⟨?_, ?_, ?_, ?_, ?_, ?_, ?_, ?_, ?_, ?_, ?_, ?_, ?_, ?_⟩ <;>
    intro h <;> simp [extractInputs, h]

/-- Witness for the amended C8 at the row with no indicator columns. -/
theorem fusion_missing_defaults_witness :
    (extractInputs emptyRow).rsi = some 50 :=
  (fusion_missing_defaults emptyRow).1 (by decide)

/-! ### Label generation (`StockPredictor.generate_labels`, lines 72-88)

`Future_Price = Close.shift(-days_ahead)` (NaN past the end of the
series), `Price_Change = (Future_Price - Close) / Close`, and
`np.select([pc > 0.02, pc < -0.02], [1, -1], default=0)`; comparisons
against a NaN `Price_Change` are false, so such rows get the default 0. -/

/-- One row after `generate_labels`. -/
structure LabeledRow where
  close : ℚ
  futurePrice : Option ℚ
  priceChange : Option ℚ
  signal : ℤ
  deriving DecidableEq

/-- `np.select` of line 87 applied to one cell. -/
def labelOf (pc : Option ℚ) : ℤ :=
  match pc with
  | none => 0
  | some x => if x > 2/100 then 1 else if x < -(2/100) then -1 else 0

/-- `generate_labels(data, days_ahead)` on the close-price series. -/
def generateLabels (closes : List ℚ) (daysAhead : ℕ) : List LabeledRow :=
  (List.range closes.length).map fun i =>
    let c := closes.getD i 0
    let fut := closes.get? (i + daysAhead)
    let pc := fut.map (fun f => (f - c) / c)
    { close := c, futurePrice := fut, priceChange := pc, signal := labelOf pc }

/-- C5: whenever a labelled row has a defined price change `pc`, its class
is 1 iff `pc > 0.02`, -1 iff `pc < -0.02`, and 0 otherwise; in particular
`pc = 0.02` and `pc = -0.02` both give class 0. -/
theorem generate_labels_thresholds (closes : List ℚ) (daysAhead : ℕ) (i : ℕ)
    (row : LabeledRow) (pc : ℚ)
    (hrow : (generateLabels closes daysAhead).get? i = some row)
    (hpc : row.priceChange = some pc) :
    (row.signal = 1 ↔ 2/100 < pc) ∧
    (row.signal = -1 ↔ pc < -(2/100)) ∧
    (row.signal = 0 ↔ pc ≤ 2/100 ∧ -(2/100) ≤ pc) ∧
    (pc = 2/100 → row.signal = 0) ∧
    (pc = -(2/100) → row.signal = 0) := by
  have hsig : row.signal = labelOf row.priceChange := by
    unfold generateLabels at hrow
    rw [List.get?_map] at hrow
    rcases h : (List.range closes.length).get? i with _ | j
    · rw [h] at hrow; simp at hrow
    · rw [h] at hrow
      simp only [Option.map_some'] at hrow
      cases hrow
      rfl
  rw [hpc] at hsig
  simp only [labelOf] at hsig
  split_ifs at hsig with h1 h2
  · rw [hsig]
    exact ⟨by simp [h1],
      ⟨fun h => absurd h (by decide), fun h => by linarith⟩,
      ⟨fun h => absurd h (by decide), fun h => by linarith [h.1]⟩,
      fun he => by rw [he] at h1; exact absurd h1 (lt_irrefl _),
      fun he => by rw [he] at h1; linarith⟩
  · rw [hsig]
    exact ⟨⟨fun h => absurd h (by decide), fun h => absurd h h1⟩,
      by simp [h2],
      ⟨fun h => absurd h (by decide), fun h => by linarith [h.2]⟩,
      fun he => by rw [he] at h2; linarith,
      fun he => by rw [he] at h2; exact absurd h2 (lt_irrefl _)⟩
  · rw [hsig]
    exact ⟨⟨fun h => absurd h (by decide), fun h => absurd h h1⟩,
      ⟨fun h => absurd h (by decide), fun h => absurd h h2⟩,
      ⟨fun _ => ⟨not_lt.mp h1, not_lt.mp h2⟩, fun _ => rfl⟩,
      fun _ => rfl, fun _ => rfl⟩

/-- Witness for C5: with closes `[100, 102]` and a 1-day horizon, row 0
has price change exactly 0.02 and class 0 (not Buy). -/
theorem generate_labels_thresholds_witness :
    ({ close := 100, futurePrice := some 102, priceChange := some (2/100),
       signal := 0 } : LabeledRow).signal = 0 ∧ (2:ℚ)/100 ≤ 2/100 := by
  have h := generate_labels_thresholds [100, 102] 1 0
      { close := 100, futurePrice := some 102, priceChange := some (2/100), signal := 0 }
      (2/100) (by norm_num [generateLabels, labelOf]) rfl
  exact ⟨h.2.2.2.1 rfl, le_refl _⟩

/-! ### Indicator pipeline (`calculate_technical_indicators`, lines 35-70)

The fourteen indicator-column assignments run in order inside one single
`try`; a raised exception from any `ta` library call is caught by the one
`except`, which returns the partially augmented frame.  The numeric
content of each column is irrelevant to which columns exist, so the model
tracks column names only; `failAt = some k` means the library call of the
k-th assignment (0-based) raises, `none` means none raises. -/

/-- The column assignments of lines 39-65, in source order. -/
def indicatorSteps : List String :=
  ["RSI", "MACD", "MACD_Signal", "MACD_Hist",
   "BB_Upper", "BB_Lower", "BB_Middle",
   "SMA_20", "SMA_50", "EMA_12", "EMA_26",
   "Volume_SMA", "ROC", "Stoch"]

/-- Columns of the frame returned by `calculate_technical_indicators`:
all steps on success; on an exception at step `k` only the steps already
executed, the rest never running because the whole body is one `try`.
Either way the function returns a frame instead of propagating. -/
def calculateTechnicalIndicators (origCols : List String) (failAt : Option ℕ) :
    List String :=
  match failAt with
  | none => origCols ++ indicatorSteps
  | some k => origCols ++ indicatorSteps.take k

/-- C7 counterexample: when only the MACD computation (step 1) fails, the
later indicators (for example `BB_Upper`, step 4) are missing from the
returned frame as well, although their own computations did not fail —
the single `try/except` abandons every later assignment. -/
theorem indicator_failure_not_isolated :
    calculateTechnicalIndicators [] (some 1) = ["RSI"] ∧
    "BB_Upper" ∉ calculateTechnicalIndicators [] (some 1) ∧
    "BB_Upper" ≠ "MACD" ∧ "BB_Upper" ∈ indicatorSteps := by
  exact ⟨rfl, by decide, by decide, by decide⟩

/-- C7 amended: if the single failing step is `k`, the returned frame has
exactly the original columns plus the first `k` indicator columns — every
indicator from step `k` on is undefined, earlier ones are kept — and the
pipeline still returns a frame (no exception propagates); with no failure
all fourteen columns are appended. -/
theorem indicator_failure_truncates (origCols : List String) (k : ℕ)
    (_hk : k < indicatorSteps.length) :
    (∀ name, name ∈ calculateTechnicalIndicators origCols (some k) ↔
      name ∈ origCols ∨ name ∈ indicatorSteps.take k) ∧
    calculateTechnicalIndicators origCols none = origCols ++ indicatorSteps := by
  constructor
  · intro name
    unfold calculateTechnicalIndicators
    exact List.mem_append
  · rfl

/-- Witness for the amended C7 at `k = 1` on an empty original frame. -/
theorem indicator_failure_truncates_witness :
    "RSI" ∈ calculateTechnicalIndicators [] (some 1) ↔
      "RSI" ∈ ([] : List String) ∨ "RSI" ∈ indicatorSteps.take 1 :=
  (indicator_failure_truncates [] 1 (by decide)).1 "RSI"

/-! ### The lazily trained global model (`predict`, lines 249-255; module
initialisation, line 364)

`predictor = StockPredictor()` is a single module-level instance whose
`self.model`, `self.scaler` and `self.is_trained` are plain attributes —
there is one model slot for the whole process, not a per-symbol map.
`train_model`'s data download and fitting are external effects; the model
it stores is summarised by the symbol whose history it was fitted on, and
`trainOk s` says whether training on symbol `s` succeeds (enough data). -/

/-- The fitted model: summarised by the symbol whose ~2 years of history
the classifier and scaler were fitted on. -/
structure TrainedModel where
  trainedSymbol : String
  deriving DecidableEq

/-- The mutable attributes of the `StockPredictor` instance. -/
structure PredictorState where
  isTrained : Bool
  model : Option TrainedModel
  deriving DecidableEq

/-- `StockPredictor.__init__`, lines 20-23. -/
def initialPredictor : PredictorState := { isTrained := false, model := none }

/-- Whether `train_model(symbol)` succeeds (data available and at least 50
usable rows) — an external-environment fact. -/
structure TrainEnv where
  trainOk : String → Bool

/-- `train_model(symbol)`, lines 106-157: on success it overwrites
`self.model` with a model fitted on `symbol`'s history and sets
`self.is_trained`; on failure it returns an error and changes nothing. -/
def trainModel (env : TrainEnv) (st : PredictorState) (symbol : String) :
    PredictorState × Bool :=
  if env.trainOk symbol
  then ({ isTrained := true, model := some { trainedSymbol := symbol } }, true)
  else (st, false)

/-- The auto-train prologue of `predict`, lines 249-255, returning the new
state and the model used for this prediction (`none` = prediction aborts
with the training error).  The guard is `if not self.is_trained` — it
never compares the requested symbol with the symbol the stored model was
trained on. -/
def predictModelUsed (env : TrainEnv) (st : PredictorState) (symbol : String) :
    PredictorState × Option TrainedModel :=
  if st.isTrained then (st, st.model)
  else
    let tr := trainModel env st symbol
    if tr.2 then (tr.1, tr.1.model) else (tr.1, none)

/-- The environment in which training always succeeds. -/
def alwaysTrainEnv : TrainEnv := ⟨fun _ => true⟩

/-- C4 counterexample: after a first prediction for AAPL, a prediction for
GOOG reuses the model trained on AAPL's history — the cache is a single
global slot, not keyed by symbol. -/
theorem model_cache_not_per_symbol :
    (predictModelUsed alwaysTrainEnv
        (predictModelUsed alwaysTrainEnv initialPredictor "AAPL").1 "GOOG").2 =
      some { trainedSymbol := "AAPL" } ∧
    "AAPL" ≠ "GOOG" ∧
    (predictModelUsed alwaysTrainEnv
        (predictModelUsed alwaysTrainEnv initialPredictor "AAPL").1 "GOOG").2 ≠
      some { trainedSymbol := "GOOG" } := by
  exact ⟨rfl, by decide, by decide⟩

/-- C4 amended: the cache is one process-global model slot.  The first
prediction request (for whatever symbol `s1` arrives first, provided its
training succeeds) trains the model once on `s1`'s history; every
subsequent prediction — for the same or for any different symbol `s2` —
leaves the state unchanged and reuses the model trained on `s1`. -/
theorem model_cache_global_singleton (env : TrainEnv) (s1 s2 : String)
    (h : env.trainOk s1 = true) :
    predictModelUsed env initialPredictor s1 =
      ({ isTrained := true, model := some { trainedSymbol := s1 } },
        some { trainedSymbol := s1 }) ∧
    predictModelUsed env (predictModelUsed env initialPredictor s1).1 s2 =
      ((predictModelUsed env initialPredictor s1).1,
        some { trainedSymbol := s1 }) := by
  have h1 : predictModelUsed env initialPredictor s1 =
      ({ isTrained := true, model := some { trainedSymbol := s1 } },
        some { trainedSymbol := s1 }) := by
    unfold predictModelUsed trainModel initialPredictor
    simp [h]
  refine ⟨h1, ?_⟩
  rw [h1]
  unfold predictModelUsed
  simp

/-- Witness for the amended C4 with AAPL first, then GOOG. -/
theorem model_cache_global_singleton_witness :
    predictModelUsed alwaysTrainEnv
        (predictModelUsed alwaysTrainEnv initialPredictor "AAPL").1 "GOOG" =
      ((predictModelUsed alwaysTrainEnv initialPredictor "AAPL").1,
        some { trainedSymbol := "AAPL" }) :=
  (model_cache_global_singleton alwaysTrainEnv "AAPL" "GOOG" rfl).2

/-! ### Scaler fitting in training (`train_model`, lines 106-157)

`prepare_features` keeps the available feature columns and `dropna()`
removes every row with any NaN cell (line 102).  `train_model` then runs
`X_scaled = self.scaler.fit_transform(X)` (line 128) BEFORE
`train_test_split(X_scaled, y, test_size=0.2, random_state=42, ...)`
(lines 131-133): the StandardScaler statistics are computed from every
usable row, including the rows that the split then holds out as the 20%
test set.  sklearn's shuffled split is an external collaborator; because
only the order of the two calls decides claim C6, the split is modelled
as an 80/20 partition (the stand-in below takes the first 80% of rows;
`train_mean_ne_scaler_mean` shows the refutation below is independent of
which 40 of the 50 rows a shuffle would select). -/

/-- `dropna` on one row: `some` of the cells when all are defined. -/
def denan : List PyFloat → Option (List ℚ)
  | [] => some []
  | none :: _ => none
  | some x :: r => (denan r).map (x :: ·)

/-- `X = data[available_columns].dropna()` (line 102): the fully defined
feature rows, in order. -/
def usableRows : List (List PyFloat) → List (List ℚ)
  | [] => []
  | r :: rest =>
    match denan r with
    | none => usableRows rest
    | some v => v :: usableRows rest

/-- Mean of one feature column. -/
def colMean (c : List ℚ) : ℚ := c.sum / c.length

/-- Population variance of one feature column (sklearn StandardScaler
uses the biased estimator). -/
def colVar (c : List ℚ) : ℚ :=
  ((c.map (fun x => (x - colMean c)^2)).sum) / c.length

/-- The j-th feature column of the usable matrix. -/
def column (X : List (List ℚ)) (j : ℕ) : List ℚ := X.map (fun r => r.getD j 0)

/-- `StandardScaler.fit` means over a `w`-feature matrix. -/
def scalerMeans (X : List (List ℚ)) (w : ℕ) : List ℚ :=
  (List.range w).map fun j => colMean (column X j)

/-- `StandardScaler.fit` variances over a `w`-feature matrix. -/
def scalerVars (X : List (List ℚ)) (w : ℕ) : List ℚ :=
  (List.range w).map fun j => colVar (column X j)

/-- The fitted scaler statistics and row count produced by training. -/
structure FitResult where
  means : List ℚ
  variances : List ℚ
  nRows : ℕ

/-- The scaler-relevant path of `train_model` (lines 121-128): drop
incomplete rows, fail with "Insufficient data" under 50 rows, otherwise
fit the scaler on the WHOLE usable matrix — line 128 runs before the
split of line 131. -/
def trainModelScalerFit (X : List (List PyFloat)) (w : ℕ) : Option FitResult :=
  if (usableRows X).length < 50 then none
  else some { means := scalerMeans (usableRows X) w,
              variances := scalerVars (usableRows X) w,
              nRows := (usableRows X).length }

/-- Stand-in for the shuffled `train_test_split` with `test_size=0.2`:
an 80/20 partition of the rows (first 80% / last 20%). -/
def trainTestSplitRows (l : List (List ℚ)) : List (List ℚ) × List (List ℚ) :=
  (l.take (l.length - l.length / 5), l.drop (l.length - l.length / 5))

/-- A 50-row single-feature matrix: 49 rows of 0 and one row of 1. -/
def X50 : List (List PyFloat) := List.replicate 49 [some 0] ++ [[some 1]]

lemma usableRows_append (a b : List (List PyFloat)) :
    usableRows (a ++ b) = usableRows a ++ usableRows b := by
  induction a with
  | nil => rfl
  | cons r rest ih =>
      simp only [List.cons_append, usableRows]
      rcases h : denan r with _ | v <;> simp [h, ih]

lemma usableRows_replicate (n : ℕ) :
    usableRows (List.replicate n [some (0:ℚ)]) = List.replicate n [(0:ℚ)] := by
  induction n with
  | zero => rfl
  | succ n ih =>
      rw [List.replicate_succ, List.replicate_succ]
      simp only [usableRows, denan, Option.map_some']
      rw [ih]

lemma usableRows_X50 : usableRows X50 = List.replicate 49 [(0:ℚ)] ++ [[1]] := by
  rw [X50, usableRows_append, usableRows_replicate]
  rfl

lemma usableRows_X50_length : (usableRows X50).length = 50 := by
  rw [usableRows_X50]; simp

lemma column_X50 : column (usableRows X50) 0 = List.replicate 49 (0:ℚ) ++ [1] := by
  rw [usableRows_X50]
  simp [column, List.map_replicate]

lemma colMean_X50 : colMean (column (usableRows X50) 0) = 1/50 := by
  rw [column_X50]
  unfold colMean
  rw [List.sum_append, List.sum_replicate]
  simp

lemma scalerMeans_X50 : scalerMeans (usableRows X50) 1 = [1/50] := by
  unfold scalerMeans
  rw [show List.range 1 = [0] from rfl]
  simp [colMean_X50]

/-- Any 40 rows drawn from a 0/1-valued column have mean `s/40` for a
natural `s`, which is never `1/50` — so no choice of 80% training split
can make the full-matrix scaler mean of `X50` equal the training mean. -/
lemma train_mean_ne_scaler_mean (tr : List ℚ)
    (h01 : ∀ x ∈ tr, x = 0 ∨ x = 1) (hlen : tr.length = 40) :
    colMean tr ≠ 1/50 := by
  obtain ⟨s, hs⟩ : ∃ s : ℕ, tr.sum = s := by
    clear hlen
    induction tr with
    | nil => exact ⟨0, by simp⟩
    | cons a t ih =>
        obtain ⟨s, hsum⟩ := ih (fun x hx => h01 x (List.mem_cons_of_mem a hx))
        rcases h01 a (List.mem_cons_self a t) with h | h
        · exact ⟨s, by rw [List.sum_cons, h, hsum, zero_add]⟩
        · exact ⟨s + 1, by rw [List.sum_cons, h, hsum]; push_cast; ring⟩
  unfold colMean
  rw [hs, hlen]
  intro h
  have h2 : (s : ℚ) = 4/5 := by
    field_simp at h
    linarith
  rcases Nat.eq_zero_or_pos s with h0 | h0
  · rw [h0] at h2; norm_num at h2
  · have : (1 : ℚ) ≤ (s : ℚ) := by exact_mod_cast h0
    linarith

/-- C6 counterexample: on `X50` the code's scaler mean is `1/50`, the mean
of all 50 usable rows, while the mean of the 40-row (80%) training
partition is 0 — the scaler statistics are NOT those of the training
split (`train_mean_ne_scaler_mean` extends this to every possible choice
of the 40 training rows). -/
theorem scaler_mean_not_train_split_mean :
    (trainModelScalerFit X50 1).map FitResult.means = some [1/50] ∧
    (trainTestSplitRows (usableRows X50)).1.length = 40 ∧
    colMean (column (trainTestSplitRows (usableRows X50)).1 0) = 0 ∧
    ((1:ℚ)/50) ≠ 0 := by
  have hsplit : (trainTestSplitRows (usableRows X50)).1 = List.replicate 40 [(0:ℚ)] := by
    unfold trainTestSplitRows
    rw [usableRows_X50]
    have hl : (List.replicate 49 [(0:ℚ)] ++ [[1]]).length = 50 := by simp
    rw [hl]
    norm_num
    rw [List.take_append_of_le_length (by simp)]
    rw [List.take_replicate]
    congr 1
  refine ⟨?_, ?_, ?_, by norm_num⟩
  · unfold trainModelScalerFit
    rw [usableRows_X50_length, scalerMeans_X50]
    norm_num
  · rw [hsplit]; simp
  · rw [hsplit]
    unfold colMean column
    rw [List.map_replicate, List.sum_replicate]
    simp

/-- C6 amended: the standardisation parameters are fit on the FULL usable
feature matrix — train and test rows together — before the 80/20 split:
whenever training succeeds, the fitted per-feature means and variances
are exactly the mean and variance over all usable rows, and there were at
least 50 of them. -/
theorem scaler_fit_on_all_usable_rows (X : List (List PyFloat)) (w : ℕ)
    (r : FitResult) (h : trainModelScalerFit X w = some r) :
    r.means = scalerMeans (usableRows X) w ∧
    r.variances = scalerVars (usableRows X) w ∧
    50 ≤ (usableRows X).length := by
  unfold trainModelScalerFit at h
  split_ifs at h with hlt
  injection h with h2
  rw [← h2]
  exact ⟨rfl, rfl, by omega⟩

/-- Witness for the amended C6 at the concrete 50-row matrix `X50`. -/
theorem scaler_fit_on_all_usable_rows_witness :
    50 ≤ (usableRows X50).length :=
  (scaler_fit_on_all_usable_rows X50 1
    { means := scalerMeans (usableRows X50) 1,
      variances := scalerVars (usableRows X50) 1,
      nRows := (usableRows X50).length }
    (by unfold trainModelScalerFit; rw [usableRows_X50_length]; norm_num)).2.2

/-! ### Trajectory simulation (`predict`, lines 288-332)

Environment parameters: Python's built-in string `hash` is randomised per
process (`PYTHONHASHSEED`), so it is a parameter `hashStr : String → ℤ`;
the code takes it modulo `2^32` (Python `%` on a positive modulus is
nonnegative, matching `Int.emod`).  `np.random.seed` maps that seed to an
RNG state (`seedState`), and `np.random.normal(0, sigma)` draws from the
current state (`normalDraw`); since line 315 reseeds immediately before
the single draw of each day, the post-draw state is never read and need
not be threaded.  `np.sin` is the parameter `sinQ`. -/

/-- The ambient process facts the simulator consumes. -/
structure SimEnv where
  hashStr : String → ℤ
  seedState : ℕ → ℕ
  normalDraw : ℕ → ℚ → ℚ
  sinQ : ℚ → ℚ

/-- One element of the `predictions` list (lines 325-329). -/
structure ForecastPoint where
  day : ℕ
  predictedPrice : ℚ
  confidence : ℚ
  deriving DecidableEq

/-- `(base_trend, volatility)` by enhanced signal, lines 297-305. -/
def signalParams (signal : ℤ) : ℚ × ℚ :=
  if signal = 1 then (8/1000, 15/1000)
  else if signal = -1 then (-(8/1000), 15/1000)
  else (1/1000, 12/1000)

/-- The per-day seed string `f"{symbol}_{date}_{day}"` of line 314. -/
def dayKey (symbol date : String) (day : ℕ) : String :=
  symbol ++ "_" ++ date ++ "_" ++ toString day

/-- `hash(f"{symbol}_{date}_{day}") % (2**32)`, line 314. -/
def daySeed (env : SimEnv) (symbol date : String) (day : ℕ) : ℕ :=
  ((env.hashStr (dayKey symbol date day)) % (2^32 : ℤ)).toNat

/-- The day-d confidence of lines 322-323:
`max(0.45, enhanced_confidence * (1 - (day - 1) * 0.03))`. -/
def dayConfidence (baseConf : ℚ) (day : ℕ) : ℚ :=
  max (45/100) (baseConf * (1 - ((day : ℚ) - 1) * (3/100)))

/-- The `for day in range(1, days + 1)` loop of lines 307-329, carrying
the running unrounded `base_price`; each stored point holds the price
rounded to cents and the confidence rounded to 3 decimals. -/
def simulateFrom (env : SimEnv) (symbol date : String)
    (baseTrend vol baseConf : ℚ) : ℕ → ℚ → ℕ → List ForecastPoint
  | _, _, 0 => []
  | day, price, n + 1 =>
      let dayFactor := env.sinQ ((day : ℚ) * (1/10)) * (3/10) + 7/10
      let trendComponent := baseTrend * dayFactor
      let volatilityComponent :=
        env.normalDraw (env.seedState (daySeed env symbol date day)) vol
      let newPrice := price * (1 + trendComponent + volatilityComponent)
      { day := day, predictedPrice := round2 newPrice,
        confidence := round3 (dayConfidence baseConf day) }
        :: simulateFrom env symbol date baseTrend vol baseConf (day + 1) newPrice n

/-- The trajectory part of `predict(symbol, days)` (lines 288-332): the
RNG state the process entered with (`entryState`) is overwritten by the
`np.random.seed` of line 294 before any draw, and the per-day reseed of
line 315 runs before the only draw of each iteration. -/
def simulate (env : SimEnv) (_entryState : ℕ) (symbol date : String)
    (signal : ℤ) (basePrice baseConf : ℚ) (days : ℕ) : List ForecastPoint :=
  let _state := env.seedState ((env.hashStr (symbol ++ "_" ++ date) % (2^32 : ℤ)).toNat)
  simulateFrom env symbol date (signalParams signal).1 (signalParams signal).2
    baseConf 1 basePrice days

lemma simulateFrom_length (env : SimEnv) (s d : String) (t v c : ℚ) :
    ∀ (n day : ℕ) (price : ℚ),
      (simulateFrom env s d t v c day price n).length = n := by
  intro n
  induction n with
  | zero => intro day price; rfl
  | succ n ih =>
      intro day price
      simp only [simulateFrom, List.length_cons]
      rw [ih]

lemma simulateFrom_take (env : SimEnv) (s d : String) (t v c : ℚ) :
    ∀ (n m day : ℕ) (price : ℚ), n ≤ m →
      (simulateFrom env s d t v c day price m).take n =
        simulateFrom env s d t v c day price n := by
  intro n
  induction n with
  | zero => intro m day price _; simp [simulateFrom]
  | succ n ih =>
      intro m day price h
      cases m with
      | zero => omega
      | succ m =>
          simp only [simulateFrom, List.take_succ_cons]
          exact congrArg _ (ih m (day + 1) _ (by omega))

lemma simulateFrom_seed_eq (env : SimEnv) (s d1 d2 : String) (t v c : ℚ) :
    ∀ (n day : ℕ) (price : ℚ),
      (∀ j, day ≤ j → j < day + n → daySeed env s d1 j = daySeed env s d2 j) →
      simulateFrom env s d1 t v c day price n =
        simulateFrom env s d2 t v c day price n := by
  intro n
  induction n with
  | zero => intro day price _; rfl
  | succ n ih =>
      intro day price hs
      simp only [simulateFrom]
      rw [hs day le_rfl (by omega)]
      exact congrArg _ (ih (day + 1) _ (fun j h1 h2 => hs j (by omega) (by omega)))

lemma simulateFrom_get? (env : SimEnv) (s d : String) (t v c : ℚ) :
    ∀ (n day : ℕ) (price : ℚ) (i : ℕ) (pt : ForecastPoint),
      (simulateFrom env s d t v c day price n).get? i = some pt →
      i < n ∧ pt.day = day + i ∧
        pt.confidence = round3 (dayConfidence c (day + i)) := by
  intro n
  induction n with
  | zero => intro day price i pt h; simp [simulateFrom] at h
  | succ n ih =>
      intro day price i pt h
      cases i with
      | zero =>
          simp only [simulateFrom, List.get?_cons_zero, Option.some.injEq] at h
          rw [← h]
          exact ⟨Nat.succ_pos n, by simp, by simp⟩
      | succ i =>
          simp only [simulateFrom, List.get?_cons_succ] at h
          obtain ⟨hlt, h1, h2⟩ := ih (day + 1) _ i pt h
          refine ⟨by omega, by omega, ?_⟩
          rw [h2]
          congr 2
          omega

lemma dayConfidence_antitone (c : ℚ) {a b : ℕ} (hab : a ≤ b) (hb : b ≤ 30) :
    dayConfidence c b ≤ dayConfidence c a := by
  unfold dayConfidence
  have h1 : ((a : ℚ)) ≤ (b : ℚ) := by exact_mod_cast hab
  have h2 : (b : ℚ) ≤ 30 := by exact_mod_cast hb
  rcases le_or_lt 0 c with hc | hc
  · apply max_le_max le_rfl
    apply mul_le_mul_of_nonneg_left _ hc
    linarith
  · have hpb : (0:ℚ) ≤ 1 - ((b : ℚ) - 1) * (3/100) := by linarith
    have hpa : (0:ℚ) ≤ 1 - ((a : ℚ) - 1) * (3/100) := by linarith
    have hnb : c * (1 - ((b : ℚ) - 1) * (3/100)) ≤ 0 := by nlinarith
    have hna : c * (1 - ((a : ℚ) - 1) * (3/100)) ≤ 0 := by nlinarith
    rw [max_eq_left (by linarith), max_eq_left (by linarith)]

lemma dayConfidence_ge (c : ℚ) (d : ℕ) : 45/100 ≤ dayConfidence c d :=
  le_max_left _ _

/-- The environment whose string hash is the key's length: a stand-in for
one possible randomised per-process Python hash, with a nontrivial
state-dependent normal draw. -/
def lenHashEnv : SimEnv where
  hashStr := fun s => (s.length : ℤ)
  seedState := fun n => n
  normalDraw := fun st v => (st : ℚ) * v / 1000
  sinQ := fun _ => 0

/-- The environment with zero hash, zero draw and zero sine. -/
def flatEnv : SimEnv where
  hashStr := fun _ => 0
  seedState := fun n => n
  normalDraw := fun _ _ => 0
  sinQ := fun _ => 0

/-- C2 amended: the simulated trajectory is bit-identical across
invocations with the same symbol, calendar date, signal, starting price
and horizon regardless of the RNG state the process entered with (every
draw follows a content-derived reseed); more generally the date enters
only through the per-day seeds, so two dates whose derived seeds agree on
every simulated day yield identical sequences — distinct dates diverge
only when some derived seed (and the resulting draw) differs, which the
code does not guarantee. -/
theorem trajectory_determinism (env : SimEnv) (g1 g2 : ℕ) (symbol d1 d2 : String)
    (signal : ℤ) (basePrice baseConf : ℚ) (days : ℕ)
    (hseed : ∀ j, 1 ≤ j → j ≤ days →
      daySeed env symbol d1 j = daySeed env symbol d2 j) :
    simulate env g1 symbol d1 signal basePrice baseConf days =
      simulate env g2 symbol d2 signal basePrice baseConf days := by
  unfold simulate
  exact simulateFrom_seed_eq env symbol d1 d2 _ _ _ days 1 basePrice
    (fun j h1 h2 => hseed j h1 (by omega))

/-- Witness for the amended C2: same date, two different entry states. -/
theorem trajectory_determinism_witness :
    simulate lenHashEnv 0 "AAPL" "2025-01-01" 1 100 (9/10) 3 =
      simulate lenHashEnv 7 "AAPL" "2025-01-01" 1 100 (9/10) 3 :=
  trajectory_determinism lenHashEnv 0 7 "AAPL" "2025-01-01" "2025-01-01" 1 100
    (9/10) 3 (fun _ _ _ => rfl)

/-- C2 counterexample: under the instantiated per-process hash of
`lenHashEnv`, the distinct dates 2025-01-01 and 2025-01-02 derive equal
per-day seeds (the key strings have equal length), so changing the
calendar date does NOT change the predicted-price sequence — the claimed
divergence is not guaranteed by the code. -/
theorem trajectory_date_collision :
    simulate lenHashEnv 0 "AAPL" "2025-01-01" 1 100 (9/10) 2 =
      simulate lenHashEnv 0 "AAPL" "2025-01-02" 1 100 (9/10) 2 ∧
    "2025-01-01" ≠ "2025-01-02" := by
  constructor
  · unfold simulate
    apply simulateFrom_seed_eq
    intro j h1 h2
    have hj : j = 1 ∨ j = 2 := by omega
    rcases hj with hj | hj <;> rw [hj] <;> rfl
  · decide

/-- C10: forecast trajectories are stable under extending the horizon —
for horizons `n ≤ m` (same environment, entry state, symbol, date, signal,
starting price, base confidence) the first `n` points of the `m`-day
forecast are exactly the `n`-day forecast, because each day's factor,
seed, draw and price depend only on the day index and the previous price,
never on the total horizon. -/
theorem forecast_horizon_stable (env : SimEnv) (g : ℕ) (symbol date : String)
    (signal : ℤ) (basePrice baseConf : ℚ) (n m : ℕ) (h : n ≤ m) :
    (simulate env g symbol date signal basePrice baseConf m).take n =
      simulate env g symbol date signal basePrice baseConf n := by
  unfold simulate
  exact simulateFrom_take env symbol date _ _ _ n m 1 basePrice h

/-- Witness for C10 with horizons 1 ≤ 2 at a concrete environment. -/
theorem forecast_horizon_stable_witness :
    (simulate lenHashEnv 0 "AAPL" "2025-01-01" 1 100 (9/10) 2).take 1 =
      simulate lenHashEnv 0 "AAPL" "2025-01-01" 1 100 (9/10) 1 :=
  forecast_horizon_stable lenHashEnv 0 "AAPL" "2025-01-01" 1 100 (9/10) 1 2
    (by norm_num)

/-- C9: the confidence stored for the forecast point at index `i` (day
`i+1`) is exactly `max(0.45, base_confidence * (1 - i*0.03))` — the value
of lines 322-323 — rounded to the documented 3 decimals of line 328; the
day-d confidence formula itself and the stored sequence are monotonically
non-increasing in the day index for horizons up to 30, and neither ever
drops below 0.45. -/
theorem forecast_confidence_decay (env : SimEnv) (g : ℕ) (symbol date : String)
    (signal : ℤ) (basePrice baseConf : ℚ) (days : ℕ) (hdays : days ≤ 30)
    (i j : ℕ) (pt1 pt2 : ForecastPoint) (hij : i ≤ j)
    (h1 : (simulate env g symbol date signal basePrice baseConf days).get? i = some pt1)
    (h2 : (simulate env g symbol date signal basePrice baseConf days).get? j = some pt2) :
    pt1.day = i + 1 ∧
    dayConfidence baseConf (i + 1) =
      max (45/100) (baseConf * (1 - (i : ℚ) * (3/100))) ∧
    pt1.confidence = round3 (dayConfidence baseConf (i + 1)) ∧
    45/100 ≤ dayConfidence baseConf (i + 1) ∧
    45/100 ≤ pt1.confidence ∧
    dayConfidence baseConf (j + 1) ≤ dayConfidence baseConf (i + 1) ∧
    pt2.confidence ≤ pt1.confidence := by
  simp only [simulate] at h1 h2
  obtain ⟨hlt1, hd1, hc1⟩ := simulateFrom_get? env symbol date _ _ _ days 1 basePrice i pt1 h1
  obtain ⟨hlt2, hd2, hc2⟩ := simulateFrom_get? env symbol date _ _ _ days 1 basePrice j pt2 h2
  have hi1 : 1 + i = i + 1 := by omega
  have hj1 : 1 + j = j + 1 := by omega
  rw [hi1] at hd1 hc1
  rw [hj1] at hc2
  have hformula : dayConfidence baseConf (i + 1) =
      max (45/100) (baseConf * (1 - (i : ℚ) * (3/100))) := by
    unfold dayConfidence
    have hcast : ((i + 1 : ℕ) : ℚ) - 1 = (i : ℚ) := by push_cast; ring
    rw [hcast]
  have hanti : dayConfidence baseConf (j + 1) ≤ dayConfidence baseConf (i + 1) :=
    dayConfidence_antitone baseConf (by omega) (by omega)
  refine ⟨hd1, hformula, hc1, dayConfidence_ge baseConf (i + 1), ?_, hanti, ?_⟩
  · rw [hc1]
    exact round3_ge_of_ge 450 (by norm_num) (dayConfidence_ge baseConf (i + 1))
  · rw [hc1, hc2]
    exact round3_mono hanti

/-- The forecast point at index `i` of a concrete two-day run. -/
def samplePoint (i : ℕ) : ForecastPoint :=
  ((simulate flatEnv 0 "AAPL" "2025-01-01" 0 100 (9/10) 2).get? i).getD ⟨0, 0, 0⟩

/-- Witness for C9 at the concrete two-day run: day-2 confidence is at
most day-1 confidence, which is at least 0.45. -/
theorem forecast_confidence_decay_witness :
    (samplePoint 1).confidence ≤ (samplePoint 0).confidence ∧
    45/100 ≤ (samplePoint 0).confidence :=
  have h := forecast_confidence_decay flatEnv 0 "AAPL" "2025-01-01" 0 100 (9/10) 2
    (by norm_num) 0 1 (samplePoint 0) (samplePoint 1) (by norm_num) rfl rfl
  ⟨h.2.2.2.2.2.2, h.2.2.2.2.1⟩

end StockPrediction
